import Mathlib

/-!
# Verification of the news-fetcher core against its specification

This file gives a shallow embedding, in Lean 4, of the core of the
news-fetcher repository: the subject registry and relevance matcher
(`src/subjects`), the engagement scorer
(`src/backend/src/services/engagementScorer.ts`), the multi-source
aggregator (`src/crawlers`), and the limit parsing of the
`GET /api/articles/:subjectId` route.

Modelling conventions:
* JavaScript numbers are modelled as exact rationals (`ℚ`); engagement
  metric values, which the sources report as non-negative counts, are
  modelled as `Option ℕ` (absent field = `none`).
* JavaScript strings are Lean `String`s; `toLowerCase` is modelled by
  per-character `Char.toLower`, and `String.prototype.includes` by a
  direct substring scan (`hasSub`).
* `Array.prototype.sort` with comparator `(a, b) => b.score - a.score`
  is the stable sort by the total preorder "higher score first"; it is
  modelled by `List.mergeSort`, which is stable.
* `Array.prototype.slice(0, end)`, `Number.prototype.toFixed(1)`,
  template-literal number printing and `parseInt` are modelled by
  `jsSlice0`, `toFixed1`, `jsNumToString` and `jsParseInt` below.
* The asynchronous fan-out of the aggregator is modelled by passing the
  per-provider outcomes (success with a list of articles, or failure)
  explicitly, in provider-registration order.
-/

/-! ## Data model (`src/crawlers/types.ts`, `src/subjects/types.ts`) -/

/-- Structure `EngagementMetrics` from `src/crawlers/types.ts`: all five fields are
optional numbers; the sources report non-negative counts, modelled as
`Option ℕ`. -/
structure EngagementMetrics where
  upvotes : Option Nat := none
  comments : Option Nat := none
  shares : Option Nat := none
  reactions : Option Nat := none
  views : Option Nat := none
deriving DecidableEq

/-- Structure `Article` from `src/crawlers/types.ts`.  `publishedAt : Date | null`
is modelled as an optional epoch timestamp. -/
structure Article where
  id : String
  title : String
  url : String
  content : String
  source : String
  publishedAt : Option Int
  engagement : EngagementMetrics
deriving DecidableEq

/-- Structure `ScoringWeights` from `engagementScorer.ts`. -/
structure ScoringWeights where
  upvotes : ℚ
  comments : ℚ
  shares : ℚ
  reactions : ℚ
  views : ℚ
deriving DecidableEq

/-- Structure `ScoreBreakdown` from `src/crawlers/types.ts`. -/
structure ScoreBreakdown where
  upvotesContribution : ℚ
  commentsContribution : ℚ
  sharesContribution : ℚ
  reactionsContribution : ℚ
  viewsContribution : ℚ
  totalScore : ℚ
  explanation : String
deriving DecidableEq

/-- Structure `ScoredArticle` from `src/crawlers/types.ts` (`extends Article`). -/
structure ScoredArticle extends Article where
  engagementScore : ℚ
  scoreBreakdown : ScoreBreakdown
  matchedKeywords : List String
  relevanceScore : Nat
deriving DecidableEq

/-- Structure `Subject` from `src/subjects/types.ts`. -/
structure Subject where
  id : String
  name : String
  description : String
  keywords : List String
  relatedTerms : List String
deriving DecidableEq

/-- Structure `SubjectMatch` from `src/subjects/types.ts`. -/
structure SubjectMatch where
  subjectId : String
  matchedKeywords : List String
  relevanceScore : Nat
deriving DecidableEq

/-! ## JavaScript string and number semantics -/

/-- Predicate `startsWithSub hay needle` holds when `needle` is a prefix of `hay`
(character lists). -/
def startsWithSub : List Char → List Char → Bool
  | _, [] => true
  | [], _ :: _ => false
  | a :: as, b :: bs => a == b && startsWithSub as bs

/-- Predicate `hasSub hay needle`: `needle` occurs as a contiguous substring of
`hay`.  Models `String.prototype.includes` on character lists; in
particular the empty needle occurs in every string. -/
def hasSub : List Char → List Char → Bool
  | [], needle => needle.isEmpty
  | h :: t, needle => startsWithSub (h :: t) needle || hasSub t needle

/-- Models `String.prototype.toLowerCase` (simple per-character lowering). -/
def jsToLower (s : String) : String :=
  ⟨s.data.map Char.toLower⟩

/-- Models `s.includes(sub)` for JavaScript strings. -/
def jsIncludes (s sub : String) : Bool :=
  hasSub s.data sub.data

/-- Models `Number.prototype.toFixed(1)` under exact rational
arithmetic: round `|q|` to the nearest multiple of 1/10, ties away from
zero, and print with exactly one digit after the point.  The rounded
numerator `⌊10|q| + 1/2⌋ = (20|num| + den) / (2 den)` is computed with
integer arithmetic on the reduced fraction. -/
def toFixed1 (q : ℚ) : String :=
  let n : Nat := (20 * q.num.natAbs + q.den) / (2 * q.den)
  (if q < 0 then "-" else "") ++ toString (n / 10) ++ "." ++ toString (n % 10)

/-- Prints a natural number `m` scaled down by `10^k` as a decimal
numeral with `k` digits after the point. -/
def decimalRepr (m k : Nat) : String :=
  if k = 0 then toString m
  else
    let ip := m / 10 ^ k
    let fpDigits := toString (m % 10 ^ k)
    let pad := String.mk (List.replicate (k - fpDigits.length) '0')
    toString ip ++ "." ++ pad ++ fpDigits

/-- Models JavaScript template-literal printing of a number (for the
decimal-representable rationals that appear in the scoring weights): the
shortest decimal numeral, with no trailing zeros and no decimal point
for integers.  Falls back to the raw rational rendering for rationals
with no finite decimal expansion (never reached at the weights used in
this development). -/
def jsNumToString (q : ℚ) : String :=
  let sign := if q < 0 then "-" else ""
  match (List.range 21).find? (fun k => (10 : Nat) ^ k % q.den == 0) with
  | some k => sign ++ decimalRepr (q.num.natAbs * ((10 : Nat) ^ k / q.den)) k
  | none => sign ++ toString q

/-! ## Engagement scorer (`src/backend/src/services/engagementScorer.ts`) -/

/-- Constant `DEFAULT_WEIGHTS` from `engagementScorer.ts`. -/
def DEFAULT_WEIGHTS : ScoringWeights :=
  { upvotes := 1, comments := 2, shares := 1.5, reactions := 0.8, views := 0.01 }

/-- One explanation part, `` `${value} ${name} x ${weight} = ${contribution.toFixed(1)}` ``,
as pushed by `calculateEngagementScore`. -/
def renderPart (v : Nat) (name : String) (wt contribution : ℚ) : String :=
  toString v ++ " " ++ name ++ " x " ++ jsNumToString wt ++ " = " ++ toFixed1 contribution

/-- Embeds `calculateEngagementScore` from `engagementScorer.ts`.  A missing
metric is read as 0 (`engagement.upvotes || 0`); an explanation part is
pushed only when the metric is truthy (present and non-zero). -/
def calculateEngagementScore (article : Article) (weights : ScoringWeights) : ScoreBreakdown :=
  let engagement := article.engagement
  let upvotesContribution := (engagement.upvotes.getD 0 : ℚ) * weights.upvotes
  let commentsContribution := (engagement.comments.getD 0 : ℚ) * weights.comments
  let sharesContribution := (engagement.shares.getD 0 : ℚ) * weights.shares
  let reactionsContribution := (engagement.reactions.getD 0 : ℚ) * weights.reactions
  let viewsContribution := (engagement.views.getD 0 : ℚ) * weights.views
  let totalScore :=
    upvotesContribution + commentsContribution + sharesContribution +
      reactionsContribution + viewsContribution
  let explanationParts : List String :=
    (if engagement.upvotes.getD 0 ≠ 0 then
      [renderPart (engagement.upvotes.getD 0) "upvotes" weights.upvotes upvotesContribution]
    else []) ++
    (if engagement.comments.getD 0 ≠ 0 then
      [renderPart (engagement.comments.getD 0) "comments" weights.comments commentsContribution]
    else []) ++
    (if engagement.shares.getD 0 ≠ 0 then
      [renderPart (engagement.shares.getD 0) "shares" weights.shares sharesContribution]
    else []) ++
    (if engagement.reactions.getD 0 ≠ 0 then
      [renderPart (engagement.reactions.getD 0) "reactions" weights.reactions reactionsContribution]
    else []) ++
    (if engagement.views.getD 0 ≠ 0 then
      [renderPart (engagement.views.getD 0) "views" weights.views viewsContribution]
    else [])
  let explanation :=
    if explanationParts.length > 0 then
      "Score calculation: " ++ String.intercalate " + " explanationParts ++
        " = " ++ toFixed1 totalScore
    else
      "No engagement metrics available"
  { upvotesContribution := upvotesContribution
    commentsContribution := commentsContribution
    sharesContribution := sharesContribution
    reactionsContribution := reactionsContribution
    viewsContribution := viewsContribution
    totalScore := totalScore
    explanation := explanation }

/-- The concrete article of the `totalScore === 321` scenario. -/
def sampleArticle : Article :=
  { id := "test-1"
    title := "Test Article"
    url := "https://example.com"
    content := "Test content"
    source := "Test Source"
    publishedAt := none
    engagement :=
      { upvotes := some 100
        comments := some 50
        shares := some 20
        reactions := some 30
        views := some 1000 } }

/-- C1 (counterexample): the article with engagement `{upvotes:100,
comments:50, shares:20, reactions:30, views:1000}` scored with the
default weights does NOT have `totalScore = 321`: the weighted sum
`100*1.0 + 50*2.0 + 20*1.5 + 30*0.8 + 1000*0.01` is `264`, not `321`,
so the claimed value is arithmetically wrong. -/
theorem C1_counterexample :
    (calculateEngagementScore sampleArticle DEFAULT_WEIGHTS).totalScore ≠ 321 := by
  norm_num [calculateEngagementScore, sampleArticle, DEFAULT_WEIGHTS]

/-- C1 (amended): for that article and the default weights,
`totalScore` equals the weighted sum
`100*1.0 + 50*2.0 + 20*1.5 + 30*0.8 + 1000*0.01`, whose value is `264`. -/
theorem C1_totalScore_264 :
    (calculateEngagementScore sampleArticle DEFAULT_WEIGHTS).totalScore =
      100 * (1 : ℚ) + 50 * 2 + 20 * 1.5 + 30 * 0.8 + 1000 * 0.01 ∧
    (calculateEngagementScore sampleArticle DEFAULT_WEIGHTS).totalScore = 264 := by
  constructor <;>
    norm_num [calculateEngagementScore, sampleArticle, DEFAULT_WEIGHTS]

/-! ## Subject registry and relevance matcher (`src/subjects/index.ts`) -/

/-- Embeds `subjects.get(id)` on the module-level `Map`, with the registry
contents passed explicitly (entries keyed by `Subject.id`). -/
def mapGet (registry : List Subject) (id : String) : Option Subject :=
  registry.find? (fun s => s.id == id)

/-- Embeds `matchContent` from `src/subjects/index.ts`: look the subject up,
lower-case the text once, scan the keywords (10 points each, pushing the
original-case keyword) and then the related terms (5 points each), and
return `none` when nothing matched. -/
def matchContent (registry : List Subject) (content : String) (subjectId : String) :
    Option SubjectMatch :=
  match mapGet registry subjectId with
  | none => none
  | some subject =>
    let lowerContent := jsToLower content
    let st1 := subject.keywords.foldl
      (fun st kw => if jsIncludes lowerContent (jsToLower kw) then (st.1 ++ [kw], st.2 + 10) else st)
      (([] : List String), (0 : Nat))
    let st2 := subject.relatedTerms.foldl
      (fun st t => if jsIncludes lowerContent (jsToLower t) then (st.1 ++ [t], st.2 + 5) else st)
      st1
    if st2.1.isEmpty then none
    else some { subjectId := subjectId, matchedKeywords := st2.1, relevanceScore := st2.2 }

/-- The accumulating scan over a term list appends exactly the matching
terms and adds the per-hit points once per matching list entry. -/
theorem termScan_eq (pred : String → Bool) (pts : Nat) (terms : List String) :
    ∀ acc : List String × Nat,
      terms.foldl (fun st t => if pred t then (st.1 ++ [t], st.2 + pts) else st) acc
        = (acc.1 ++ terms.filter pred, acc.2 + pts * (terms.filter pred).length) := by
  induction terms with
  | nil => intro acc; simp
  | cons h t ih =>
    intro acc
    by_cases hp : pred h
    · simp only [List.foldl_cons, hp, if_pos, List.filter_cons_of_pos, ih,
        List.length_cons, List.append_assoc, List.singleton_append, Prod.mk.injEq]
      exact ⟨trivial, by ring⟩
    · simp [List.foldl_cons, hp, ih, List.filter_cons]

/-- Closed form of `matchContent` at a registered subject: the matched
keywords are the matching keywords followed by the matching related
terms (each in list order), and the score is 10 per matching keyword
plus 5 per matching related-term entry. -/
theorem matchContent_eq (registry : List Subject) (content subjectId : String)
    (subject : Subject) (h : mapGet registry subjectId = some subject) :
    matchContent registry content subjectId =
      (let kf := subject.keywords.filter
          (fun k => jsIncludes (jsToLower content) (jsToLower k))
       let rf := subject.relatedTerms.filter
          (fun t => jsIncludes (jsToLower content) (jsToLower t))
       if (kf ++ rf).isEmpty then none
       else some { subjectId := subjectId, matchedKeywords := kf ++ rf,
                   relevanceScore := 10 * kf.length + 5 * rf.length }) := by
  unfold matchContent
  rw [h]
  simp only [termScan_eq]
  simp

/-- A lower-cased non-empty string is non-empty, so it does not occur in
the empty string. -/
theorem jsIncludes_empty_left (t : String) (h : t ≠ "") :
    jsIncludes "" (jsToLower t) = false := by
  cases t with
  | mk data =>
    cases data with
    | nil => simp at h
    | cons c cs => simp [jsIncludes, jsToLower, hasSub]

/-- A subject whose keyword list contains the empty string (the registry
performs no validation of keyword contents). -/
def emptyKeywordSubject : Subject :=
  { id := "s", name := "Sample", description := "", keywords := [""], relatedTerms := [] }

/-- C5 (counterexample): for the registered subject whose keyword list
contains the empty string, `matchContent` on the empty input text does
NOT return absent: the empty keyword is a substring of the empty text,
so a match with score 10 is returned. -/
theorem C5_counterexample :
    mapGet [emptyKeywordSubject] "s" = some emptyKeywordSubject ∧
    matchContent [emptyKeywordSubject] "" "s" =
      some { subjectId := "s", matchedKeywords := [""], relevanceScore := 10 } := by
  decide

/-- C5 (amended): for every registered subject all of whose keywords and
related terms are non-empty strings, `matchContent` applied to the empty
input text returns absent. -/
theorem C5_empty_text_absent (registry : List Subject) (subjectId : String)
    (subject : Subject) (h : mapGet registry subjectId = some subject)
    (hk : ∀ t ∈ subject.keywords, t ≠ "")
    (hr : ∀ t ∈ subject.relatedTerms, t ≠ "") :
    matchContent registry "" subjectId = none := by
  rw [matchContent_eq registry "" subjectId subject h]
  have hlower : jsToLower "" = "" := rfl
  have hkf : subject.keywords.filter
      (fun k => jsIncludes (jsToLower "") (jsToLower k)) = [] := by
    rw [List.filter_eq_nil_iff]
    intro k hkmem
    rw [hlower, jsIncludes_empty_left k (hk k hkmem)]
    simp
  have hrf : subject.relatedTerms.filter
      (fun t => jsIncludes (jsToLower "") (jsToLower t)) = [] := by
    rw [List.filter_eq_nil_iff]
    intro t htmem
    rw [hlower, jsIncludes_empty_left t (hr t htmem)]
    simp
  simp [hkf, hrf]

/-- A concrete subject with non-empty keywords and related terms. -/
def plainSubject : Subject :=
  { id := "s", name := "Sample", description := "",
    keywords := ["ai"], relatedTerms := ["ml"] }

/-- C5 witness: a concrete registry with non-empty keywords on which the
amended statement evaluates. -/
theorem C5_witness :
    matchContent [plainSubject] "" "s" = none :=
  C5_empty_text_absent [plainSubject] "s" plainSubject (by decide) (by decide) (by decide)

/-- A subject whose related-term list contains a duplicated entry (the
registry performs no validation of term lists). -/
def dupRelatedSubject : Subject :=
  { id := "s", name := "Sample", description := "", keywords := [],
    relatedTerms := ["ai", "ai"] }

/-- The number of DISTINCT related terms of `subject` matched by `text`,
following the words of the spec for C6. -/
def distinctMatchedRelatedCount (subject : Subject) (text : String) : Nat :=
  ((subject.relatedTerms.filter
    (fun t => jsIncludes (jsToLower text) (jsToLower t))).dedup).length

/-- C6 (counterexample): for the registered subject with the duplicated
related term `"ai"` and the text `"ai"` (which contains a related term
and no keyword), the returned `relevanceScore` is 10, while 5 times the
number of distinct related terms matched is 5: each matching list entry
contributes 5, duplicates included. -/
theorem C6_counterexample :
    mapGet [dupRelatedSubject] "s" = some dupRelatedSubject ∧
    dupRelatedSubject.keywords = [] ∧
    (∃ t ∈ dupRelatedSubject.relatedTerms,
      jsIncludes (jsToLower "ai") (jsToLower t) = true) ∧
    (matchContent [dupRelatedSubject] "ai" "s").map SubjectMatch.relevanceScore =
      some 10 ∧
    5 * distinctMatchedRelatedCount dupRelatedSubject "ai" = 5 := by
  decide

/-- C6 (amended): for every registered subject and every text matching
at least one related term and none of the keywords, the returned
`relevanceScore` is exactly 5 times the number of related-term LIST
ENTRIES matched (a duplicated entry counts each time it occurs). -/
theorem C6_related_only_score (registry : List Subject) (subjectId text : String)
    (subject : Subject) (h : mapGet registry subjectId = some subject)
    (hk : ∀ k ∈ subject.keywords, jsIncludes (jsToLower text) (jsToLower k) = false)
    (hr : ∃ t ∈ subject.relatedTerms, jsIncludes (jsToLower text) (jsToLower t) = true) :
    (matchContent registry text subjectId).map SubjectMatch.relevanceScore =
      some (5 * (subject.relatedTerms.filter
        (fun t => jsIncludes (jsToLower text) (jsToLower t))).length) := by
  rw [matchContent_eq registry text subjectId subject h]
  have hkf : subject.keywords.filter
      (fun k => jsIncludes (jsToLower text) (jsToLower k)) = [] := by
    rw [List.filter_eq_nil_iff]
    intro k hkm
    simp [hk k hkm]
  obtain ⟨t, htm, hti⟩ := hr
  have htf : t ∈ subject.relatedTerms.filter
      (fun u => jsIncludes (jsToLower text) (jsToLower u)) :=
    List.mem_filter.mpr ⟨htm, by simp [hti]⟩
  have hne : (subject.relatedTerms.filter
      (fun u => jsIncludes (jsToLower text) (jsToLower u))).isEmpty = false := by
    simp only [List.isEmpty_eq_false_iff_exists_mem]
    exact ⟨t, htf⟩
  simp only [hkf, List.nil_append, hne]
  simp [Nat.mul_comm]

/-- C6 witness: a concrete registered subject, with a text containing
the related term `"ml"` and not the keyword `"ai"`, scores `5 * 1`. -/
theorem C6_witness :
    (matchContent [plainSubject] "about ml stuff" "s").map SubjectMatch.relevanceScore =
      some 5 := by
  have h := C6_related_only_score [plainSubject] "s" "about ml stuff" plainSubject
    (by decide) (by decide) (by decide)
  simpa using h

/-- A subject with a mixed-case keyword. -/
def mixedCaseSubject : Subject :=
  { id := "s", name := "Sample", description := "", keywords := ["AI"],
    relatedTerms := [] }

/-- C7: for every registered subject and every text containing one of
a keyword of the subject as a case-insensitive substring, `matchContent`
returns a present result whose `matchedKeywords` contains that keyword
in its original case, with `relevanceScore` at least 10. -/
theorem C7_keyword_match (registry : List Subject) (subjectId text kw : String)
    (subject : Subject) (h : mapGet registry subjectId = some subject)
    (hmem : kw ∈ subject.keywords)
    (hinc : jsIncludes (jsToLower text) (jsToLower kw) = true) :
    ∃ m, matchContent registry text subjectId = some m ∧
      kw ∈ m.matchedKeywords ∧ 10 ≤ m.relevanceScore := by
  rw [matchContent_eq registry text subjectId subject h]
  have hkw : kw ∈ subject.keywords.filter
      (fun k => jsIncludes (jsToLower text) (jsToLower k)) :=
    List.mem_filter.mpr ⟨hmem, by simp [hinc]⟩
  have hne : ((subject.keywords.filter
        (fun k => jsIncludes (jsToLower text) (jsToLower k))) ++
      (subject.relatedTerms.filter
        (fun t => jsIncludes (jsToLower text) (jsToLower t)))).isEmpty = false := by
    simp only [List.isEmpty_eq_false_iff_exists_mem]
    exact ⟨kw, List.mem_append_left _ hkw⟩
  simp only [hne, Bool.false_eq_true, if_false]
  refine ⟨_, rfl, List.mem_append_left _ hkw, ?_⟩
  have hlen : 1 ≤ (subject.keywords.filter
      (fun k => jsIncludes (jsToLower text) (jsToLower k))).length :=
    List.length_pos.mpr (List.ne_nil_of_mem hkw)
  dsimp only
  omega

/-- C7 witness: the keyword `"AI"` occurs case-insensitively in
`"we love ai now"`; the match contains the original-case `"AI"` and
scores at least 10. -/
theorem C7_witness :
    "AI" ∈ mixedCaseSubject.keywords ∧
    jsIncludes (jsToLower "we love ai now") (jsToLower "AI") = true ∧
    ∃ m, matchContent [mixedCaseSubject] "we love ai now" "s" = some m ∧
      "AI" ∈ m.matchedKeywords ∧ 10 ≤ m.relevanceScore :=
  ⟨by decide, by decide,
    C7_keyword_match [mixedCaseSubject] "s" "we love ai now" "AI" mixedCaseSubject
      (by decide) (by decide) (by decide)⟩

/-! ## Ranking (`getTopArticles` from `engagementScorer.ts`) -/

/-- The comparator `(a, b) => b.engagementScore - a.engagementScore`
passed to `Array.prototype.sort`: `a` may stay before `b` exactly when
the score of `b` is at most the score of `a`. -/
def leDesc (a b : ScoredArticle) : Bool :=
  decide (b.engagementScore ≤ a.engagementScore)

/-- The stable descending sort performed by
`scoredArticles.sort((a, b) => b.engagementScore - a.engagementScore)`
in `getTopArticles` (JavaScript array sort is stable). -/
def jsSortDesc (l : List ScoredArticle) : List ScoredArticle :=
  l.mergeSort leDesc

/-- Models `Array.prototype.slice(0, e)`: for `e ≥ 0` the first `e`
elements (all of them when `e` exceeds the length); for `e < 0` the end
index counts from the end of the array. -/
def jsSlice0 {α : Type} (l : List α) (e : Int) : List α :=
  if e < 0 then l.take (((l.length : Int) + e).toNat) else l.take e.toNat

/-- Embeds `getTopArticles` from `engagementScorer.ts`: sort descending by
`engagementScore`, then `slice(0, limit)` (the omitted-argument default
is `limit = 10`). -/
def getTopArticles (scoredArticles : List ScoredArticle) (limit : Int) : List ScoredArticle :=
  jsSlice0 (jsSortDesc scoredArticles) limit

theorem leDesc_trans :
    ∀ a b c, leDesc a b = true → leDesc b c = true → leDesc a c = true := by
  intro a b c hab hbc
  simp only [leDesc, decide_eq_true_eq] at *
  exact le_trans hbc hab

theorem leDesc_total : ∀ a b, (leDesc a b || leDesc b a) = true := by
  intro a b
  simp only [leDesc, Bool.or_eq_true, decide_eq_true_eq]
  exact le_total b.engagementScore a.engagementScore

/-- The sort of `getTopArticles` permutes its input. -/
theorem jsSortDesc_perm (xs : List ScoredArticle) : (jsSortDesc xs).Perm xs :=
  List.mergeSort_perm xs leDesc

/-- The sort of `getTopArticles` is descending by `engagementScore`. -/
theorem jsSortDesc_sorted (xs : List ScoredArticle) :
    (jsSortDesc xs).Pairwise (fun a b => b.engagementScore ≤ a.engagementScore) := by
  have h := List.sorted_mergeSort leDesc_trans leDesc_total xs
  exact h.imp (fun hab => by simpa [leDesc] using hab)

/-- The sort of `getTopArticles` is stable: for every score value, the
articles carrying that score appear in the output in their input order. -/
theorem jsSortDesc_stable (xs : List ScoredArticle) (s : ℚ) :
    (jsSortDesc xs).filter (fun a => decide (a.engagementScore = s)) =
      xs.filter (fun a => decide (a.engagementScore = s)) := by
  set p : ScoredArticle → Bool := fun a => decide (a.engagementScore = s) with hp
  have hmem : ∀ a ∈ xs.filter p, a.engagementScore = s := by
    intro a ha
    have h2 := (List.mem_filter.mp ha).2
    simpa [hp] using h2
  have hc : (xs.filter p).Pairwise (fun a b => leDesc a b = true) := by
    apply List.pairwise_of_forall_mem_list
    intro a ha b hb
    simp only [leDesc, decide_eq_true_eq]
    rw [hmem a ha, hmem b hb]
  have hsub : (xs.filter p).Sublist (jsSortDesc xs) :=
    List.sublist_mergeSort leDesc_trans leDesc_total hc (List.filter_sublist xs)
  have hself : (xs.filter p).filter p = xs.filter p := by
    rw [List.filter_eq_self]
    intro a ha
    exact (List.mem_filter.mp ha).2
  have hsub2 : (xs.filter p).Sublist ((jsSortDesc xs).filter p) := by
    have h3 := hsub.filter p
    rwa [hself] at h3
  have hlen : (xs.filter p).length = ((jsSortDesc xs).filter p).length :=
    (((jsSortDesc_perm xs).filter p).length_eq).symm
  exact (hsub2.eq_of_length hlen).symm

/-- A score breakdown whose only non-trivial field is the total. -/
def mkBreakdown (score : ℚ) : ScoreBreakdown :=
  { upvotesContribution := 0
    commentsContribution := 0
    sharesContribution := 0
    reactionsContribution := 0
    viewsContribution := 0
    totalScore := score
    explanation := "" }

/-- A scored article with the given id and engagement score. -/
def mkScored (idStr : String) (score : ℚ) : ScoredArticle :=
  { id := idStr
    title := "T"
    url := "U"
    content := "C"
    source := "S"
    publishedAt := none
    engagement := {}
    engagementScore := score
    scoreBreakdown := mkBreakdown score
    matchedKeywords := []
    relevanceScore := 0 }

/-- A two-element input, already in descending score order. -/
def twoScored : List ScoredArticle := [mkScored "2" 100, mkScored "1" 50]

theorem jsSortDesc_twoScored : jsSortDesc twoScored = twoScored :=
  List.mergeSort_of_sorted (by decide)

/-- Evaluates `getTopArticles` on `twoScored` with limit `-1` keeps the first of
the two sorted articles (JS `slice(0, -1)` drops the last element). -/
theorem getTop_twoScored_neg1 : getTopArticles twoScored (-1) = [mkScored "2" 100] := by
  unfold getTopArticles jsSlice0
  rw [jsSortDesc_twoScored]
  norm_num [twoScored]

/-- C2 (counterexample): for the limit `-1 ≤ 0` and a non-empty input,
`getTopArticles` does NOT return an empty sequence. -/
theorem C2_counterexample : getTopArticles twoScored (-1) ≠ [] := by
  rw [getTop_twoScored_neg1]
  simp

/-- C2 (amended): `getTopArticles` stably sorts descending by
`engagementScore` and takes the first `limit` entries: the sorted
sequence is a permutation of the input, pairwise descending, and
score-classes keep their input order; for `limit ≥ 0` the result is the
first `limit` sorted entries (all of them when `limit` exceeds the input
length, none when `limit = 0`, and the empty input gives the empty
result), while for `limit < 0` the result drops the last `|limit|`
sorted entries instead of being empty (JS `slice` semantics). -/
theorem C2_getTopArticles_spec (xs : List ScoredArticle) (limit : Int) :
    (jsSortDesc xs).Perm xs ∧
    (jsSortDesc xs).Pairwise (fun a b => b.engagementScore ≤ a.engagementScore) ∧
    (∀ s : ℚ, (jsSortDesc xs).filter (fun a => decide (a.engagementScore = s)) =
      xs.filter (fun a => decide (a.engagementScore = s))) ∧
    (0 ≤ limit → getTopArticles xs limit = (jsSortDesc xs).take limit.toNat) ∧
    (limit = 0 → getTopArticles xs limit = []) ∧
    (xs = [] → getTopArticles xs limit = []) ∧
    ((xs.length : Int) ≤ limit → getTopArticles xs limit = jsSortDesc xs) ∧
    (limit < 0 →
      getTopArticles xs limit = (jsSortDesc xs).take (xs.length - limit.natAbs)) := by
  have hlen : (jsSortDesc xs).length = xs.length := List.length_mergeSort xs
  have htake : 0 ≤ limit → getTopArticles xs limit = (jsSortDesc xs).take limit.toNat := by
    intro h
    unfold getTopArticles jsSlice0
    rw [if_neg (not_lt.mpr h)]
  refine ⟨jsSortDesc_perm xs, jsSortDesc_sorted xs, jsSortDesc_stable xs,
    htake, ?_, ?_, ?_, ?_⟩
  · intro h
    subst h
    simp [htake le_rfl]
  · intro h
    subst h
    unfold getTopArticles jsSlice0
    simp [jsSortDesc]
  · intro h
    have h0 : 0 ≤ limit := le_trans (by positivity) h
    rw [htake h0]
    apply List.take_of_length_le
    rw [hlen]
    omega
  · intro h
    unfold getTopArticles jsSlice0
    rw [if_pos h, hlen]
    congr 1
    omega

/-- C2 witness: the amended statement evaluated on the concrete
two-article input at limits `1`, `0` and `-1`. -/
theorem C2_witness :
    getTopArticles twoScored 1 = (jsSortDesc twoScored).take (1 : Int).toNat ∧
    getTopArticles twoScored 0 = [] ∧
    getTopArticles twoScored (-1) =
      (jsSortDesc twoScored).take (twoScored.length - (-1 : Int).natAbs) :=
  ⟨(C2_getTopArticles_spec twoScored 1).2.2.2.1 (by norm_num),
   (C2_getTopArticles_spec twoScored 0).2.2.2.2.1 rfl,
   (C2_getTopArticles_spec twoScored (-1)).2.2.2.2.2.2.2 (by norm_num)⟩

/-- C9 (counterexample): with the negative limit `-1`, applying
`getTopArticles` twice is NOT the same as applying it once: on the
two-article input the first application keeps one article and the second
drops it. -/
theorem C9_counterexample :
    getTopArticles (getTopArticles twoScored (-1)) (-1) ≠
      getTopArticles twoScored (-1) := by
  rw [getTop_twoScored_neg1]
  have h1 : getTopArticles [mkScored "2" 100] (-1) = [] := by
    unfold getTopArticles jsSlice0
    rw [show jsSortDesc [mkScored "2" 100] = [mkScored "2" 100] from
      List.mergeSort_of_sorted (by decide)]
    norm_num
  rw [h1]
  simp

/-- C9 (amended): for every non-negative limit, `getTopArticles` is
idempotent: applying it twice with the same limit yields the same result
as applying it once. -/
theorem C9_idempotent (xs : List ScoredArticle) (limit : Int) (h : 0 ≤ limit) :
    getTopArticles (getTopArticles xs limit) limit = getTopArticles xs limit := by
  have htake : ∀ ys, getTopArticles ys limit = (jsSortDesc ys).take limit.toNat := by
    intro ys
    unfold getTopArticles jsSlice0
    rw [if_neg (not_lt.mpr h)]
  rw [htake xs, htake]
  have hsorted : ((jsSortDesc xs).take limit.toNat).Pairwise
      (fun a b => leDesc a b = true) :=
    (List.sorted_mergeSort leDesc_trans leDesc_total xs).sublist
      (List.take_sublist _ _)
  rw [show jsSortDesc ((jsSortDesc xs).take limit.toNat) =
      (jsSortDesc xs).take limit.toNat from List.mergeSort_of_sorted hsorted]
  rw [List.take_take, min_self]

/-- C9 witness: idempotence evaluated on the concrete two-article input
at limit `1`. -/
theorem C9_witness :
    getTopArticles (getTopArticles twoScored 1) 1 = getTopArticles twoScored 1 :=
  C9_idempotent twoScored 1 (by norm_num)

/-- Embeds `scoreArticles` from `engagementScorer.ts`: map each article to a
`ScoredArticle`, re-running the relevance matcher on
`` `${article.title} ${article.content}` `` (an article with no match
keeps empty `matchedKeywords` and `relevanceScore` 0; it is not
excluded). -/
def scoreArticles (registry : List Subject) (articles : List Article)
    (subjectId : String) (weights : ScoringWeights) : List ScoredArticle :=
  articles.map (fun article =>
    let scoreBreakdown := calculateEngagementScore article weights
    let m := matchContent registry (article.title ++ " " ++ article.content) subjectId
    { toArticle := article
      engagementScore := scoreBreakdown.totalScore
      scoreBreakdown := scoreBreakdown
      matchedKeywords := (m.map SubjectMatch.matchedKeywords).getD []
      relevanceScore := (m.map SubjectMatch.relevanceScore).getD 0 })

/-- C8: `scoreArticles` is a pure map: the output has the same length
and order as the input (projecting each output back to its article gives
the input, so no article is excluded), and every produced
`ScoredArticle` satisfies `engagementScore = scoreBreakdown.totalScore`. -/
theorem C8_scoreArticles_invariants (registry : List Subject) (articles : List Article)
    (subjectId : String) (weights : ScoringWeights) :
    (scoreArticles registry articles subjectId weights).length = articles.length ∧
    (scoreArticles registry articles subjectId weights).map ScoredArticle.toArticle
      = articles ∧
    ∀ sa ∈ scoreArticles registry articles subjectId weights,
      sa.engagementScore = sa.scoreBreakdown.totalScore := by
  refine ⟨by simp [scoreArticles], ?_, ?_⟩
  · induction articles with
    | nil => rfl
    | cons a as ih =>
      simp only [scoreArticles, List.map_cons, List.map_map] at ih ⊢
      rw [List.cons.injEq]
      exact ⟨rfl, ih⟩
  · intro sa hsa
    simp only [scoreArticles, List.mem_map] at hsa
    obtain ⟨a, ha, rfl⟩ := hsa
    rfl

/-- C8 witness: the map invariants evaluated on a one-article input. -/
theorem C8_witness :
    (scoreArticles [plainSubject] [sampleArticle] "s" DEFAULT_WEIGHTS).map
      ScoredArticle.toArticle = [sampleArticle] :=
  (C8_scoreArticles_invariants [plainSubject] [sampleArticle] "s" DEFAULT_WEIGHTS).2.1

/-! ## Aggregator (`fetchAllArticles` from `src/crawlers/index.ts`) -/

/-- Embeds `fetchAllArticles` from `src/crawlers/index.ts`, with the awaited
per-crawler outcomes passed explicitly in crawler-registration order:
each crawler promise is wrapped in its own try/catch that turns a
failure into an empty contribution, `Promise.all` preserves registration
order, and the buffered results are concatenated in that order. -/
def fetchAllArticles (crawlerResults : List (Except String (List Article))) :
    List Article :=
  (crawlerResults.map (fun r =>
    match r with
    | Except.ok articles => articles
    | Except.error _ => [])).flatten

/-- C3: `fetchAllArticles` returns exactly the concatenation of the
lists of the non-failing providers, in registration order; a failing
provider contributes zero articles, no failure escapes (the function is
total), and the total count is the sum of the counts of the healthy
providers. -/
theorem C3_fetchAllArticles_spec (crawlerResults : List (Except String (List Article))) :
    fetchAllArticles crawlerResults =
      (crawlerResults.filterMap Except.toOption).flatten ∧
    (fetchAllArticles crawlerResults).length =
      ((crawlerResults.filterMap Except.toOption).map List.length).sum := by
  have h : fetchAllArticles crawlerResults =
      (crawlerResults.filterMap Except.toOption).flatten := by
    induction crawlerResults with
    | nil => rfl
    | cons r rs ih =>
      cases r with
      | ok articles =>
        simp [fetchAllArticles, Except.toOption, List.filterMap_cons] at ih ⊢
        exact ih
      | error e =>
        simp [fetchAllArticles, Except.toOption, List.filterMap_cons] at ih ⊢
        exact ih
  refine ⟨h, ?_⟩
  rw [h, List.length_flatten]

/-! ## Route limit parsing (`GET /api/articles/:subjectId`) -/

/-- JavaScript whitespace skipped by `parseInt` (common subset). -/
def isJsSpace (c : Char) : Bool :=
  c == ' ' || c == '\t' || c == '\n' || c == '\r' || c.toNat == 11 || c.toNat == 12

/-- Decimal digit value. -/
def decDigit (c : Char) : Option Nat :=
  if c.isDigit then some (c.toNat - 48) else none

/-- Hexadecimal digit value. -/
def hexDigit (c : Char) : Option Nat :=
  if c.isDigit then some (c.toNat - 48)
  else if 'a' ≤ c && c ≤ 'f' then some (c.toNat - 87)
  else if 'A' ≤ c && c ≤ 'F' then some (c.toNat - 55)
  else none

/-- Accumulates the value of the maximal digit run at the head of the
character list. -/
def digitsVal (digitOf : Char → Option Nat) (base : Nat) : List Char → Nat → Nat
  | [], acc => acc
  | c :: cs, acc =>
    match digitOf c with
    | some d => digitsVal digitOf base cs (acc * base + d)
    | none => acc

/-- Models `parseInt(s)` (no radix argument): skip leading whitespace,
read an optional sign, honour a `0x`/`0X` hexadecimal prefix, then parse
the maximal digit run; `none` models `NaN` (no digits found). -/
def jsParseIntStr (s : String) : Option Int :=
  let cs := s.data.dropWhile isJsSpace
  let signed : Int × List Char :=
    match cs with
    | '-' :: rest => (-1, rest)
    | '+' :: rest => (1, rest)
    | _ => (1, cs)
  let parsed : (Char → Option Nat) × Nat × List Char :=
    match signed.2 with
    | '0' :: 'x' :: rest => (hexDigit, 16, rest)
    | '0' :: 'X' :: rest => (hexDigit, 16, rest)
    | _ => (decDigit, 10, signed.2)
  match parsed.2.2 with
  | [] => none
  | c :: _ =>
    match parsed.1 c with
    | some _ => some (signed.1 * (digitsVal parsed.1 parsed.2.1 parsed.2.2 0 : Int))
    | none => none

/-- Embeds `parseInt(req.query.limit as string)`: an absent query parameter is
`undefined`, which `parseInt` coerces to the string `"undefined"`. -/
def jsParseInt (q : Option String) : Option Int :=
  jsParseIntStr (match q with | none => "undefined" | some s => s)

/-- Embeds `const limit = parseInt(req.query.limit as string) || 10;` from the
`GET /api/articles/:subjectId` handler: `NaN` and `0` (and `-0`) are
falsy, so they are replaced by the default 10. -/
def effectiveLimit (q : Option String) : Int :=
  match jsParseInt q with
  | none => 10
  | some n => if n = 0 then 10 else n

/-- C10: when the `limit` query parameter is `"0"`, absent, or not
parseable as an integer, the handler runs the pipeline with limit 10;
in particular such a request cannot reach the pipeline with limit 0
(even though `getTopArticles` itself returns the empty sequence at
limit 0). -/
theorem C10_limit_default (q : Option String)
    (h : q = some "0" ∨ q = none ∨ jsParseInt q = none) :
    effectiveLimit q = 10 ∧ effectiveLimit q ≠ 0 := by
  have h10 : effectiveLimit q = 10 := by
    rcases h with rfl | rfl | hn
    · decide
    · decide
    · simp [effectiveLimit, hn]
  exact ⟨h10, by rw [h10]; norm_num⟩

/-- C10 witness: the three default-triggering inputs, concretely. -/
theorem C10_witness :
    (effectiveLimit (some "0") = 10 ∧ effectiveLimit (some "0") ≠ 0) ∧
    (effectiveLimit none = 10 ∧ effectiveLimit none ≠ 0) ∧
    ((jsParseInt (some "abc") = none) ∧ effectiveLimit (some "abc") = 10) :=
  ⟨C10_limit_default (some "0") (Or.inl rfl),
   C10_limit_default none (Or.inr (Or.inl rfl)),
   by decide, (C10_limit_default (some "abc") (Or.inr (Or.inr (by decide)))).1⟩

/-! ## Explanation format (`calculateEngagementScore`) -/

/-- The five metrics in the fixed order of the spec, as
(value-with-absent-read-as-0, name, weight) entries. -/
def metricEntries (e : EngagementMetrics) (w : ScoringWeights) :
    List (Nat × String × ℚ) :=
  [(e.upvotes.getD 0, "upvotes", w.upvotes),
   (e.comments.getD 0, "comments", w.comments),
   (e.shares.getD 0, "shares", w.shares),
   (e.reactions.getD 0, "reactions", w.reactions),
   (e.views.getD 0, "views", w.views)]

/-- Modelled from the spec: the total score as the sum of the five
contributions. -/
def specTotalScore (e : EngagementMetrics) (w : ScoringWeights) : ℚ :=
  ((metricEntries e w).map (fun t => (t.1 : ℚ) * t.2.2)).sum

/-- Modelled from the spec: the rendered parts
`"<value> <metricName> x <weight> = <contribution to one decimal place>"`
of the present and non-zero metrics, in the fixed order. -/
def specParts (e : EngagementMetrics) (w : ScoringWeights) : List String :=
  ((metricEntries e w).filter (fun t => decide (t.1 ≠ 0))).map
    (fun t => renderPart t.1 t.2.1 t.2.2 ((t.1 : ℚ) * t.2.2))

/-- The explanation format exactly as claim C4 states it: the part list
joined with `" + "`, followed by `" = <totalScore to one decimal>"`,
with no prefix (and the literal fallback when every metric is absent or
zero). -/
def claimedExplanation (e : EngagementMetrics) (w : ScoringWeights) : String :=
  if (specParts e w).isEmpty then "No engagement metrics available"
  else String.intercalate " + " (specParts e w) ++ " = " ++
    toFixed1 (specTotalScore e w)

/-- The amended explanation format: as claimed, but prefixed with the
literal `"Score calculation: "` that the code emits. -/
def specExplanation (e : EngagementMetrics) (w : ScoringWeights) : String :=
  if (specParts e w).isEmpty then "No engagement metrics available"
  else "Score calculation: " ++ String.intercalate " + " (specParts e w) ++
    " = " ++ toFixed1 (specTotalScore e w)

/-- An article reporting a single upvote and nothing else. -/
def oneUpvoteArticle : Article :=
  { id := "a", title := "T", url := "U", content := "C", source := "S",
    publishedAt := none, engagement := { upvotes := some 1 } }

/-- C4 (counterexample): for the article with one upvote and default
weights, the produced explanation is NOT the bare joined list the claim
describes: the code prefixes it with `"Score calculation: "`. -/
theorem C4_counterexample :
    (calculateEngagementScore oneUpvoteArticle DEFAULT_WEIGHTS).explanation ≠
      claimedExplanation oneUpvoteArticle.engagement DEFAULT_WEIGHTS ∧
    (calculateEngagementScore oneUpvoteArticle DEFAULT_WEIGHTS).explanation =
      "Score calculation: 1 upvotes x 1 = 1.0 = 1.0" ∧
    claimedExplanation oneUpvoteArticle.engagement DEFAULT_WEIGHTS =
      "1 upvotes x 1 = 1.0 = 1.0" := by
  have hL : (calculateEngagementScore oneUpvoteArticle DEFAULT_WEIGHTS).explanation =
      "Score calculation: 1 upvotes x 1 = 1.0 = 1.0" := by
    simp only [calculateEngagementScore, oneUpvoteArticle, DEFAULT_WEIGHTS]
    norm_num
    decide
  have hR : claimedExplanation oneUpvoteArticle.engagement DEFAULT_WEIGHTS =
      "1 upvotes x 1 = 1.0 = 1.0" := by
    simp only [claimedExplanation, specParts, specTotalScore, metricEntries,
      oneUpvoteArticle, DEFAULT_WEIGHTS]
    norm_num
    decide
  exact ⟨by rw [hL, hR]; decide, hL, hR⟩

/-- C4 (amended): for every article and weights, the explanation is the
literal `"No engagement metrics available"` when every metric is absent
or zero, and otherwise `"Score calculation: "` followed by the list, in
the fixed order upvotes, comments, shares, reactions, views, of only the
present and non-zero metrics, each rendered as
`"<value> <metricName> x <weight> = <contribution to one decimal place>"`,
joined with `" + "`, followed by `" = <totalScore to one decimal place>"`. -/
theorem C4_explanation (article : Article) (weights : ScoringWeights) :
    (calculateEngagementScore article weights).explanation =
      specExplanation article.engagement weights := by
  rcases article with ⟨aid, atitle, aurl, acontent, asource, apub, e⟩
  rcases e with ⟨u, c, s, r, v⟩
  simp only [calculateEngagementScore, specExplanation, specParts, specTotalScore,
    metricEntries]
  by_cases hu : u.getD 0 ≠ 0 <;> by_cases hc : c.getD 0 ≠ 0 <;>
    by_cases hs : s.getD 0 ≠ 0 <;> by_cases hr : r.getD 0 ≠ 0 <;>
    by_cases hv : v.getD 0 ≠ 0 <;>
    simp [hu, hc, hs, hr, hv, List.filter_cons, List.filter_nil] <;>
    ring_nf
